import Mathlib

/-!
Shallow embedding of the authentication / authorization core of the
`fastapi-be` repository (files `app/crud.py`, `app/utils.py`,
`app/core/security.py`, `app/api/routes/items.py`), together with proofs of
the specified properties.

External collaborators that do not appear under `app/` (the SQLModel data
classes of `app/models.py`, the `passlib` bcrypt context, the `jose` JWT
library, and the database session) are modelled from the specification, as
noted on each such definition.  Non-deterministic or ambient inputs of the
Python code (bcrypt salts, the current clock, database-assigned primary
keys, the configured secret and expiration) are made explicit parameters.
-/

namespace FastapiBE

/-! ## Password hasher (`app/core/security.py`) -/

/-- Modelled from the spec: the stored-hash strings handled by passlib's
bcrypt `CryptContext` (the library is not part of the repository).  A
well-formed hash records the salt it was generated with and, abstractly,
the plaintext it was derived from — the spec's ideal hasher, whose `verify`
"returns true iff `plaintext` was the input that produced `hash`".
A `malformed` value is any stored string not produced by the hasher.
One-wayness is outside the model. -/
inductive HashStr where
  | wellFormed (salt : Nat) (source : String)
  | malformed (s : String)
deriving DecidableEq, Repr

/-- `verify_password` of `app/core/security.py`: delegates to
`pwd_context.verify(plain_password, hashed_password)`.  Per spec §4.1 the
hasher returns `true` iff the plaintext produced the hash, and a malformed
hash input yields `false`, not a crash. -/
def verify_password (plain_password : String) (hashed_password : HashStr) : Bool :=
  match hashed_password with
  | .wellFormed _ source => plain_password == source
  | .malformed _ => false

/-- `get_password_hash` of `app/core/security.py`: delegates to
`pwd_context.hash(password)`.  The salt drawn by the library for this call
is the explicit `salt` argument: two separate calls use different salts. -/
def get_password_hash (salt : Nat) (password : String) : HashStr :=
  .wellFormed salt password

/-! ## User data model and CRUD (`app/models.py` is absent; `app/crud.py`) -/

/-- Modelled from the spec §3: the `User` row — `id` (unique), `email`
(unique login key), `hashed_password`, `is_active`, `is_superuser`. -/
structure User where
  id : Nat
  email : String
  hashed_password : HashStr
  is_active : Bool
  is_superuser : Bool
deriving DecidableEq, Repr

/-- Modelled from the spec: the registration payload `UserCreate` —
an email, a plaintext password, and the two flags (defaulted for a plain
registration). -/
structure UserCreate where
  email : String
  password : String
  is_active : Bool := true
  is_superuser : Bool := false
deriving DecidableEq, Repr

/-- The user table, in insertion order.  Email uniqueness is enforced by
the store (spec §6), not by the functions below. -/
abbrev UserDb := List User

/-- `crud.create_user`: validates `user_create` into a `User` row whose
`hashed_password` is `get_password_hash(user_create.password)`, inserts it
and returns the refreshed row.  `newId` is the primary key assigned by the
database, `salt` the salt drawn by the hasher for this call. -/
def create_user (db : UserDb) (newId salt : Nat) (user_create : UserCreate) :
    User × UserDb :=
  let db_obj : User :=
    { id := newId
      email := user_create.email
      hashed_password := get_password_hash salt user_create.password
      is_active := user_create.is_active
      is_superuser := user_create.is_superuser }
  (db_obj, db ++ [db_obj])

/-- `crud.get_user_by_email`: `select(User).where(User.email == email)`,
then `.first()` — the first stored row with that email, if any. -/
def get_user_by_email (db : UserDb) (email : String) : Option User :=
  db.find? (fun u => u.email == email)

/-- `crud.authenticate`: look up by email; `None` if absent; `None` if the
password does not verify against the stored hash; the stored user
otherwise. -/
def authenticate (db : UserDb) (email password : String) : Option User :=
  match get_user_by_email db email with
  | none => none
  | some db_user =>
    if !(verify_password password db_user.hashed_password) then none
    else some db_user

/-- Setting the `is_active` flag of a user row (used to compare the
behaviour of `authenticate` across flips of the flag). -/
def User.withActive (b : Bool) (u : User) : User :=
  { u with is_active := b }

/-! ## Password-reset tokens (`app/utils.py`, the `jose` JWT library) -/

/-- Modelled from the spec §3/§6: the claims of a reset token — `sub`
(string subject), `exp` and `nbf` (numeric Unix timestamps), each
optional in an arbitrary incoming token. -/
structure ResetClaims where
  sub : Option String
  exp : Option Int
  nbf : Option Int
deriving DecidableEq, Repr

/-- Injective textual encoding of an optional string claim. -/
def encodeOptStr : Option String → String
  | none => "-"
  | some s => "+" ++ s

/-- Injective textual encoding of an optional integer claim. -/
def encodeOptInt : Option Int → String
  | none => "-"
  | some n => "+" ++ toString n

/-- Canonical payload encoding of a claims record. -/
def encodeClaims (c : ResetClaims) : String :=
  encodeOptStr c.sub ++ "." ++ encodeOptInt c.exp ++ "." ++ encodeOptInt c.nbf

/-- Modelled from the spec §6: the HMAC-SHA256 signature over
header and payload, as an ideal MAC — a value determined by the signing
key, the algorithm identifier and the claims.  Unforgeability is outside
the model; all the proofs use is that verification compares the token's
signature against this value. -/
def hmacSig (key alg : String) (c : ResetClaims) : String :=
  key ++ "." ++ alg ++ "." ++ encodeClaims c

/-- An arbitrary input string handed to the verifier: either the three
base64url segments of a signed token (claims, declared algorithm,
signature), or garbage that does not parse as such. -/
inductive TokenInput where
  | signed (claims : ResetClaims) (alg : String) (sig : String)
  | garbage (s : String)
deriving DecidableEq, Repr

/-- The `jose.JWTError` escape hatch: `jwt.decode` collapses every
decode-time failure (malformed token, wrong or disallowed algorithm, bad
signature, expired, not yet valid) into this exception type. -/
inductive JWTError where
  | decodeError
deriving DecidableEq, Repr

/-- A Python exception escaping `verify_password_reset_token`. -/
inductive PyErr where
  | keyError
deriving DecidableEq, Repr

/-- Is the token expired at `now`?  Absent `exp` never expires. -/
def expExpired (c : ResetClaims) (now : Int) : Bool :=
  match c.exp with
  | some e => decide (e < now)
  | none => false

/-- Is the token not yet valid at `now`?  Absent `nbf` means unbounded
past. -/
def nbfViolated (c : ResetClaims) (now : Int) : Bool :=
  match c.nbf with
  | some n => decide (now < n)
  | none => false

/-- Modelled from the spec §4.2/§6: `jose.jwt.decode(token, key,
algorithms)` — rejects garbage, a declared algorithm outside the allowed
list, a signature differing from the MAC of the claims under `key`, an
expired token and a not-yet-valid one, raising `JWTError` in every such
case; otherwise returns the claims. -/
def jwtDecode (token : TokenInput) (key : String) (algorithms : List String)
    (now : Int) : Except JWTError ResetClaims :=
  match token with
  | .garbage _ => .error .decodeError
  | .signed claims alg sig =>
    if !(algorithms.contains alg) then .error .decodeError
    else if sig != hmacSig key alg claims then .error .decodeError
    else if expExpired claims now then .error .decodeError
    else if nbfViolated claims now then .error .decodeError
    else .ok claims

/-- `generate_password_reset_token` of `app/utils.py`: `exp = now +
hours`, `nbf = now`, `sub = email`, signed HS256 under the configured
secret.  `secret` and `expireHours` stand for `settings.SECRET_KEY` and
`settings.EMAIL_RESET_TOKEN_EXPIRE_HOURS`; `now` for
`datetime.utcnow()` as a Unix timestamp. -/
def generate_password_reset_token (secret : String) (expireHours : Nat)
    (now : Int) (email : String) : TokenInput :=
  let exp : Int := now + (expireHours : Int) * 3600
  let claims : ResetClaims := { sub := some email, exp := some exp, nbf := some now }
  .signed claims "HS256" (hmacSig secret "HS256" claims)

/-- `verify_password_reset_token` of `app/utils.py`:
`try: decoded_token = jwt.decode(token, SECRET_KEY, algorithms=["HS256"]);
return str(decoded_token["sub"]) except JWTError: return None`.
The dictionary access `decoded_token["sub"]` raises `KeyError` when the
decoded claims carry no `sub`, and only `JWTError` is caught. -/
def verify_password_reset_token (secret : String) (now : Int)
    (token : TokenInput) : Except PyErr (Option String) :=
  match jwtDecode token secret ["HS256"] now with
  | .ok decoded_token =>
    match decoded_token.sub with
    | some s => .ok (some s)
    | none => .error .keyError
  | .error _ => .ok none

/-! ## Items and their routes (`app/api/routes/items.py`, `app/crud.py`) -/

/-- Modelled from the spec §3: an `Item` row — `id`, the owning user's
`owner_id`, and the payload fields (`title`, `description`). -/
structure Item where
  id : Nat
  title : String
  description : String
  owner_id : Nat
deriving DecidableEq, Repr

/-- Modelled from the spec: the creation payload `ItemCreate` — the
payload fields only; ownership is not part of the request body type. -/
structure ItemCreate where
  title : String
  description : String
deriving DecidableEq, Repr

/-- Modelled from the spec §9: the partial-update payload `ItemUpdate` —
each field optional, `none` meaning unset (excluded from the update
dictionary by `model_dump(exclude_unset=True)`). -/
structure ItemUpdate where
  title : Option String
  description : Option String
deriving DecidableEq, Repr

/-- `fastapi.HTTPException`, as raised by the item routes. -/
structure HTTPException where
  status_code : Nat
  detail : String
deriving DecidableEq, Repr

/-- `app.models.Message`, the delete route's response body. -/
structure Message where
  message : String
deriving DecidableEq, Repr

/-- `app.models.ItemsPublic`: the listing response — a page of items and
the total count. -/
structure ItemsPublic where
  data : List Item
  count : Nat
deriving DecidableEq, Repr

/-- The item table, in insertion order. -/
abbrev ItemDb := List Item

/-- `session.get(Item, id)`: primary-key lookup. -/
def sessionGet (items : ItemDb) (id : Nat) : Option Item :=
  items.find? (fun it => it.id == id)

/-- `item.sqlmodel_update(update_dict)` for an `ItemUpdate` dumped with
`exclude_unset=True`: set fields overwrite, unset fields are untouched;
`id` and `owner_id` are not part of the payload and never change. -/
def applyItemUpdate (item : Item) (item_in : ItemUpdate) : Item :=
  { item with
    title := item_in.title.getD item.title
    description := item_in.description.getD item.description }

namespace Routes

/-- `read_items` (GET `/`): superusers count and list all the items;
other callers count and list over `select(Item).where(Item.owner_id ==
current_user.id)` — the scoping is part of the query, before
`offset(skip).limit(limit)` is applied. -/
def read_items (items : ItemDb) (current_user : User) (skip limit : Nat) :
    ItemsPublic :=
  if current_user.is_superuser then
    { data := (items.drop skip).take limit, count := items.length }
  else
    let owned := items.filter (fun it => it.owner_id == current_user.id)
    { data := (owned.drop skip).take limit, count := owned.length }

/-- `read_item` (GET `/{id}`): 404 when the id is absent, 400 when the
caller is neither superuser nor owner, the item otherwise. -/
def read_item (items : ItemDb) (current_user : User) (id : Nat) :
    Except HTTPException Item :=
  match sessionGet items id with
  | none => .error { status_code := 404, detail := "Item not found" }
  | some item =>
    if !current_user.is_superuser && (item.owner_id != current_user.id) then
      .error { status_code := 400, detail := "Not enough permissions" }
    else .ok item

/-- `create_item` (POST `/`): `Item.model_validate(item_in,
update={"owner_id": current_user.id})`, then insert — no authorization
check; the owner is the authenticated caller, whatever the body said.
`newId` is the database-assigned primary key. -/
def create_item (items : ItemDb) (current_user : User) (newId : Nat)
    (item_in : ItemCreate) : Item × ItemDb :=
  let item : Item :=
    { id := newId
      title := item_in.title
      description := item_in.description
      owner_id := current_user.id }
  (item, items ++ [item])

/-- `update_item` (PUT `/{id}`): same 404 / 400 guards as `read_item`;
on success the addressed row is overwritten with the merged fields and
the refreshed row returned.  The second component is the table after the
call. -/
def update_item (items : ItemDb) (current_user : User) (id : Nat)
    (item_in : ItemUpdate) : Except HTTPException Item × ItemDb :=
  match sessionGet items id with
  | none => (.error { status_code := 404, detail := "Item not found" }, items)
  | some item =>
    if !current_user.is_superuser && (item.owner_id != current_user.id) then
      (.error { status_code := 400, detail := "Not enough permissions" }, items)
    else
      let updated := applyItemUpdate item item_in
      (.ok updated, items.map (fun it => if it.id == id then updated else it))

/-- `delete_item` (DELETE `/{id}`): same 404 / 400 guards; on success the
row is removed and a success message returned. -/
def delete_item (items : ItemDb) (current_user : User) (id : Nat) :
    Except HTTPException Message × ItemDb :=
  match sessionGet items id with
  | none => (.error { status_code := 404, detail := "Item not found" }, items)
  | some item =>
    if !current_user.is_superuser && (item.owner_id != current_user.id) then
      (.error { status_code := 400, detail := "Not enough permissions" }, items)
    else
      (.ok { message := "Item deleted successfully" },
        items.filter (fun it => it.id != id))

end Routes

namespace Crud

/-- `crud.create_item`: `Item.model_validate(item_in, update={"owner_id":
owner_id})`, then insert. -/
def create_item (items : ItemDb) (newId : Nat) (item_in : ItemCreate)
    (owner_id : Nat) : Item × ItemDb :=
  let db_item : Item :=
    { id := newId
      title := item_in.title
      description := item_in.description
      owner_id := owner_id }
  (db_item, items ++ [db_item])

end Crud

/-! ## Concrete sample data (spec §8 scenarios) -/

/-- An item owned by the user with id 2. -/
def sampleItem : Item :=
  { id := 10, title := "t", description := "d", owner_id := 2 }

/-- A plain (non-superuser) user with id 2, the owner of `sampleItem`. -/
def ownerUser : User :=
  { id := 2, email := "b@x.io", hashed_password := .malformed "", is_active := true,
    is_superuser := false }

/-- A plain (non-superuser) user with id 1, owner of nothing below. -/
def strangerUser : User :=
  { id := 1, email := "a@x.io", hashed_password := .malformed "", is_active := true,
    is_superuser := false }

/-- The listing-isolation scenario of spec §8: user 1 owns items 10 and
11, user 2 owns item 12. -/
def scenarioItems : ItemDb :=
  [{ id := 10, title := "t10", description := "d", owner_id := 1 },
   { id := 11, title := "t11", description := "d", owner_id := 1 },
   { id := 12, title := "t12", description := "d", owner_id := 2 }]

/-! ## Theorems -/

/-- Looking a user up by email is unaffected by flips of `is_active`. -/
theorem get_user_by_email_map_withActive (db : UserDb) (email : String) (b : Bool) :
    get_user_by_email (db.map (User.withActive b)) email
      = (get_user_by_email db email).map (User.withActive b) := by
  unfold get_user_by_email
  rw [List.find?_map]
  rfl

/-- C7: for every password `p`, two separate calls of
`get_password_hash(p)` (drawing distinct salts) produce different outputs,
and yet `verify_password(p, get_password_hash(p))` returns `true` for
every `p` and every such call. -/
theorem password_hash_salted_and_verifiable (p : String) (s1 s2 : Nat)
    (h : s1 ≠ s2) :
    get_password_hash s1 p ≠ get_password_hash s2 p
    ∧ verify_password p (get_password_hash s1 p) = true
    ∧ verify_password p (get_password_hash s2 p) = true := by
  refine ⟨fun hEq => h ?_, ?_, ?_⟩
  · cases hEq
    rfl
  · simp [verify_password, get_password_hash]
  · simp [verify_password, get_password_hash]

/-- Witness for the salting theorem at `p = "pw"`, salts `0` and `1`. -/
theorem password_hash_salted_and_verifiable_witness :
    (0 : Nat) ≠ 1
    ∧ (get_password_hash 0 "pw" ≠ get_password_hash 1 "pw"
        ∧ verify_password "pw" (get_password_hash 0 "pw") = true
        ∧ verify_password "pw" (get_password_hash 1 "pw") = true) :=
  ⟨by decide, password_hash_salted_and_verifiable "pw" 0 1 (by decide)⟩

/-- C8: for every plaintext and every malformed stored hash,
`verify_password` returns `false` (and, being a total function, does not
raise). -/
theorem verify_password_malformed_false (p s : String) :
    verify_password p (HashStr.malformed s) = false := rfl

/-- C2: `authenticate` returns the stored user exactly when the email
lookup succeeds and the password verifies, returns the same `none` when
the email is unknown and when the password fails, and authenticates every
freshly registered user against the password it was created with
(freshness of the email being the store's uniqueness invariant). -/
theorem authenticate_correct (db : UserDb) (email p : String)
    (newId salt : Nat) (uc : UserCreate)
    (hfresh : ∀ u ∈ db, u.email ≠ uc.email) :
    (∀ u : User, authenticate db email p = some u ↔
        (get_user_by_email db email = some u
          ∧ verify_password p u.hashed_password = true))
    ∧ (get_user_by_email db email = none → authenticate db email p = none)
    ∧ (∀ u : User, get_user_by_email db email = some u →
        verify_password p u.hashed_password = false →
        authenticate db email p = none)
    ∧ authenticate (create_user db newId salt uc).2 uc.email uc.password
        = some (create_user db newId salt uc).1 := by
  refine ⟨?_, ?_, ?_, ?_⟩
  · intro u
    unfold authenticate
    cases hdb : get_user_by_email db email with
    | none => simp
    | some v =>
      show (if (!verify_password p v.hashed_password) = true then none
            else some v) = some u ↔ _
      cases hv : verify_password p v.hashed_password with
      | true =>
        rw [if_neg (by simp)]
        constructor
        · intro h
          cases h
          exact ⟨rfl, hv⟩
        · rintro ⟨h1, _⟩
          exact h1
      | false =>
        rw [if_pos (by simp)]
        constructor
        · intro h
          cases h
        · rintro ⟨h1, h2⟩
          cases h1
          simp [hv] at h2
  · intro h
    unfold authenticate
    rw [h]
  · intro u h1 h2
    unfold authenticate
    rw [h1]
    simp [h2]
  · unfold create_user authenticate get_user_by_email
    have hnone : db.find? (fun u => u.email == uc.email) = none := by
      rw [List.find?_eq_none]
      intro x hx
      simpa using hfresh x hx
    simp only [List.find?_append, hnone, Option.none_or, List.find?_cons,
      List.find?_nil]
    simp [verify_password, get_password_hash]

/-- Witness: registering `u@example.com` with password `s` into an empty
store and authenticating with the same pair returns the created row. -/
theorem authenticate_correct_witness :
    authenticate
        (create_user [] 1 0 { email := "u@example.com", password := "s" }).2
        "u@example.com" "s"
      = some (create_user [] 1 0 { email := "u@example.com", password := "s" }).1 :=
  (authenticate_correct [] "u@example.com" "s" 1 0
    { email := "u@example.com", password := "s" } (by simp)).2.2.2

/-- C3: the result of `authenticate` does not depend on `is_active`:
flipping the flag on every stored row flips it on the result and nothing
else (in particular success/failure is unchanged), and a stored user with
`is_active = false` and a verifying password is still returned. -/
theorem authenticate_ignores_is_active (db : UserDb) (email p : String)
    (b : Bool) :
    authenticate (db.map (User.withActive b)) email p
        = (authenticate db email p).map (User.withActive b)
    ∧ (authenticate (db.map (User.withActive b)) email p).isSome
        = (authenticate db email p).isSome
    ∧ (∀ u : User, get_user_by_email db email = some u → u.is_active = false →
        verify_password p u.hashed_password = true →
        authenticate db email p = some u) := by
  have hmain : authenticate (db.map (User.withActive b)) email p
      = (authenticate db email p).map (User.withActive b) := by
    unfold authenticate
    rw [get_user_by_email_map_withActive]
    cases get_user_by_email db email with
    | none => rfl
    | some u =>
      show (if !(verify_password p u.hashed_password) then none
            else some (User.withActive b u)) = _
      by_cases hv : verify_password p u.hashed_password
      · simp [hv]
      · simp only [Bool.not_eq_true] at hv
        simp [hv]
  refine ⟨hmain, by rw [hmain]; cases authenticate db email p <;> rfl, ?_⟩
  intro u h1 _ h3
  unfold authenticate
  rw [h1]
  simp [h3]

/-- Witness: a store holding one inactive user; authenticating with the
correct password still returns that user. -/
theorem authenticate_ignores_is_active_witness :
    authenticate
        [{ id := 1, email := "e@x.io", hashed_password := get_password_hash 0 "p",
           is_active := false, is_superuser := false }] "e@x.io" "p"
      = some { id := 1, email := "e@x.io", hashed_password := get_password_hash 0 "p",
               is_active := false, is_superuser := false } :=
  (authenticate_ignores_is_active
      [{ id := 1, email := "e@x.io", hashed_password := get_password_hash 0 "p",
         is_active := false, is_superuser := false }] "e@x.io" "p" true).2.2
    _ (by simp [get_user_by_email]) rfl (by simp [verify_password, get_password_hash])

/-- C5: with a fixed secret and a positive configured expiration, a reset
token verified at any time `t` inside its `[nbf, exp]` window yields back
the email it was issued for, and the same token with any altered
signature yields `None`. -/
theorem reset_token_roundtrip (secret : String) (expireHours : Nat)
    (now t : Int) (email : String) (_hpos : 0 < expireHours)
    (hlo : now ≤ t) (hhi : t ≤ now + (expireHours : Int) * 3600) :
    verify_password_reset_token secret t
        (generate_password_reset_token secret expireHours now email)
      = .ok (some email)
    ∧ ∀ sig : String,
        sig ≠ hmacSig secret "HS256"
            { sub := some email, exp := some (now + (expireHours : Int) * 3600),
              nbf := some now } →
        verify_password_reset_token secret t
            (TokenInput.signed
              { sub := some email,
                exp := some (now + (expireHours : Int) * 3600),
                nbf := some now } "HS256" sig)
          = .ok none := by
  have hexp : expExpired
      { sub := some email, exp := some (now + (expireHours : Int) * 3600),
        nbf := some now } t = false := by
    simp only [expExpired, decide_eq_false_iff_not]
    omega
  have hnbf : nbfViolated
      { sub := some email, exp := some (now + (expireHours : Int) * 3600),
        nbf := some now } t = false := by
    simp only [nbfViolated, decide_eq_false_iff_not]
    omega
  refine ⟨?_, ?_⟩
  · simp [verify_password_reset_token, generate_password_reset_token, jwtDecode,
      hexp, hnbf]
  · intro sig hsig
    simp [verify_password_reset_token, jwtDecode, bne_iff_ne, hsig]

/-- Witness: issuing for `user@example.com` under secret `"k"`, 48-hour
expiration, at time `0`, and verifying immediately. -/
theorem reset_token_roundtrip_witness :
    verify_password_reset_token "k" 0
        (generate_password_reset_token "k" 48 0 "user@example.com")
      = .ok (some "user@example.com") :=
  (reset_token_roundtrip "k" 48 0 0 "user@example.com" (by decide) (by decide)
    (by decide)).1

/-- C6 (counterexample): a token correctly signed under the configured
secret whose claims carry no `sub` makes `verify_password_reset_token`
raise a `KeyError` (`decoded_token["sub"]` is outside the
`except JWTError` handler), contradicting "it never raises an exception
to the caller for any input token". -/
theorem verify_reset_token_missing_sub_raises :
    verify_password_reset_token "k" 0
        (TokenInput.signed { sub := none, exp := none, nbf := none } "HS256"
          (hmacSig "k" "HS256" { sub := none, exp := none, nbf := none }))
      = .error .keyError := by
  simp [verify_password_reset_token, jwtDecode, expExpired, nbfViolated]

/-- C6 (amended): every decode-time failure — bad signature, expired, not
yet valid, malformed input — is caught and returns `None`, and a
successful decode whose claims carry a `sub` returns it; the one escaping
case is a successful decode with no `sub` claim, which raises `KeyError`. -/
theorem verify_reset_token_totality (secret : String) (now : Int)
    (token : TokenInput) :
    (∀ e : JWTError, jwtDecode token secret ["HS256"] now = .error e →
        verify_password_reset_token secret now token = .ok none)
    ∧ (∀ c : ResetClaims, jwtDecode token secret ["HS256"] now = .ok c →
        ∀ s : String, c.sub = some s →
          verify_password_reset_token secret now token = .ok (some s))
    ∧ (∀ c : ResetClaims, jwtDecode token secret ["HS256"] now = .ok c →
        c.sub = none →
          verify_password_reset_token secret now token = .error .keyError) := by
  refine ⟨?_, ?_, ?_⟩
  · intro e he
    unfold verify_password_reset_token
    rw [he]
  · intro c hc s hs
    unfold verify_password_reset_token
    rw [hc]
    simp [hs]
  · intro c hc hs
    unfold verify_password_reset_token
    rw [hc]
    simp [hs]

/-- Witness: garbage input decodes to an error, and the verifier returns
`None` for it. -/
theorem verify_reset_token_totality_witness :
    verify_password_reset_token "k" 0 (TokenInput.garbage "x") = .ok none :=
  (verify_reset_token_totality "k" 0 (TokenInput.garbage "x")).1 .decodeError rfl

/-- C1: on every item id and caller, each of `read_item`, `update_item`
and `delete_item` returns 404 `"Item not found"` when the id is absent;
when the item exists and the caller is neither superuser nor owner it
returns 400 `"Not enough permissions"` and leaves the table unchanged;
when the caller is superuser or owner the operation proceeds — the allow
condition is exactly `is_superuser ∨ id = owner_id`. -/
theorem item_endpoint_guards (items : ItemDb) (u : User) (id : Nat)
    (item_in : ItemUpdate) :
    (sessionGet items id = none →
        Routes.read_item items u id
            = .error { status_code := 404, detail := "Item not found" }
        ∧ Routes.update_item items u id item_in
            = (.error { status_code := 404, detail := "Item not found" }, items)
        ∧ Routes.delete_item items u id
            = (.error { status_code := 404, detail := "Item not found" }, items))
    ∧ (∀ item : Item, sessionGet items id = some item →
        (¬(u.is_superuser = true ∨ u.id = item.owner_id) →
            Routes.read_item items u id
                = .error { status_code := 400, detail := "Not enough permissions" }
            ∧ Routes.update_item items u id item_in
                = (.error { status_code := 400, detail := "Not enough permissions" },
                    items)
            ∧ Routes.delete_item items u id
                = (.error { status_code := 400, detail := "Not enough permissions" },
                    items))
        ∧ ((u.is_superuser = true ∨ u.id = item.owner_id) →
            Routes.read_item items u id = .ok item
            ∧ Routes.update_item items u id item_in
                = (.ok (applyItemUpdate item item_in),
                    items.map fun it =>
                      if it.id == id then applyItemUpdate item item_in else it)
            ∧ Routes.delete_item items u id
                = (.ok { message := "Item deleted successfully" },
                    items.filter fun it => it.id != id))) := by
  refine ⟨?_, ?_⟩
  · intro hnone
    unfold Routes.read_item Routes.update_item Routes.delete_item
    rw [hnone]
    exact ⟨rfl, rfl, rfl⟩
  · intro item hsome
    have hguard : ∀ b : Bool,
        ((!u.is_superuser && (item.owner_id != u.id)) = b) →
        (b = true ↔ ¬(u.is_superuser = true ∨ u.id = item.owner_id)) := by
      intro b hb
      subst hb
      cases hsuper : u.is_superuser with
      | false =>
        simp only [Bool.not_false, Bool.true_and, bne_iff_ne, Bool.false_eq_true,
          false_or]
        exact ne_comm
      | true => simp
    refine ⟨?_, ?_⟩
    · intro hdeny
      have hcond : (!u.is_superuser && (item.owner_id != u.id)) = true :=
        ((hguard _ rfl).mpr hdeny)
      unfold Routes.read_item Routes.update_item Routes.delete_item
      rw [hsome]
      simp [hcond]
    · intro hallow
      have hcond : (!u.is_superuser && (item.owner_id != u.id)) = false := by
        cases hc : (!u.is_superuser && (item.owner_id != u.id)) with
        | false => rfl
        | true => exact absurd hallow (((hguard _ rfl).mp hc))
      unfold Routes.read_item Routes.update_item Routes.delete_item
      rw [hsome]
      simp [hcond]

/-- Witness for the endpoint guards: a one-item table owned by user 2;
the owner reads it back, a non-owner non-superuser gets the 400 error,
and a missing id gets the 404 error. -/
theorem item_endpoint_guards_witness :
    Routes.read_item [sampleItem] ownerUser 10 = .ok sampleItem
    ∧ Routes.read_item [sampleItem] strangerUser 10
      = .error { status_code := 400, detail := "Not enough permissions" }
    ∧ Routes.read_item [sampleItem] strangerUser 11
      = .error { status_code := 404, detail := "Item not found" } :=
  ⟨(((item_endpoint_guards [sampleItem] ownerUser 10
        { title := none, description := none }).2
      sampleItem (by decide)).2 (by decide)).1,
   (((item_endpoint_guards [sampleItem] strangerUser 10
        { title := none, description := none }).2
      sampleItem (by decide)).1 (by decide)).1,
   ((item_endpoint_guards [sampleItem] strangerUser 11
        { title := none, description := none }).1
      (by decide)).1⟩

/-- C4: for a non-superuser caller `read_items` lists and counts only the
caller's items — the page is carved out of the owner-scoped query, never
out of unscoped rows — so every returned item is owned by the caller; for
a superuser it lists and counts over all items. -/
theorem read_items_owner_scoped (items : ItemDb) (u : User) (skip limit : Nat) :
    (u.is_superuser = false →
        Routes.read_items items u skip limit
          = { data := ((items.filter fun it => it.owner_id == u.id).drop skip).take
                limit,
              count := (items.filter fun it => it.owner_id == u.id).length }
        ∧ ∀ it ∈ (Routes.read_items items u skip limit).data, it.owner_id = u.id)
    ∧ (u.is_superuser = true →
        Routes.read_items items u skip limit
          = { data := (items.drop skip).take limit, count := items.length }) := by
  refine ⟨?_, ?_⟩
  · intro hsup
    have heq : Routes.read_items items u skip limit
        = { data := ((items.filter fun it => it.owner_id == u.id).drop skip).take
              limit,
            count := (items.filter fun it => it.owner_id == u.id).length } := by
      unfold Routes.read_items
      rw [hsup]
      simp
    refine ⟨heq, ?_⟩
    intro it hit
    rw [heq] at hit
    have h1 : it ∈ items.filter fun it => it.owner_id == u.id :=
      List.drop_subset _ _ (List.take_subset _ _ hit)
    simpa using (List.mem_filter.mp h1).2
  · intro hsup
    unfold Routes.read_items
    rw [hsup]
    simp

/-- Witness (spec §8 scenario): non-superuser user 2 listing over the
three-item table sees exactly its own item 12, with count 1. -/
theorem read_items_owner_scoped_witness :
    Routes.read_items scenarioItems ownerUser 0 100
      = { data := [{ id := 12, title := "t12", description := "d", owner_id := 2 }],
          count := 1 } := by
  have h := (read_items_owner_scoped scenarioItems ownerUser 0 100).1 (by decide)
  rw [h.1]
  decide

/-- C9: every item created through the create-item route is owned by the
authenticated caller: the stored row's `owner_id` is the caller's id for
every request body (so the body cannot override it), the route performs
no authorization check (it succeeds for every authenticated caller), and
the new row is simply appended to the table.  `crud.create_item` likewise
stamps exactly the `owner_id` it is given. -/
theorem create_item_owner_is_caller (items : ItemDb) (u : User) (newId : Nat)
    (item_in : ItemCreate) :
    (Routes.create_item items u newId item_in).1.owner_id = u.id
    ∧ (Routes.create_item items u newId item_in).2
        = items ++ [(Routes.create_item items u newId item_in).1]
    ∧ (∀ other : ItemCreate,
        (Routes.create_item items u newId other).1.owner_id
          = (Routes.create_item items u newId item_in).1.owner_id)
    ∧ (Crud.create_item items newId item_in u.id).1.owner_id = u.id :=
  ⟨rfl, rfl, fun _ => rfl, rfl⟩

/-- C10: the count returned by `read_items` is independent of `skip` and
`limit` and equals the number of items visible to the caller; pagination
touches only the data page, which is the `skip`-drop / `limit`-take of
the visible items and hence holds at most `limit` entries. -/
theorem read_items_count_pagination (items : ItemDb) (u : User)
    (skip limit skip2 limit2 : Nat) :
    (Routes.read_items items u skip limit).count
        = (Routes.read_items items u skip2 limit2).count
    ∧ (Routes.read_items items u skip limit).count
        = (if u.is_superuser then items
           else items.filter fun it => it.owner_id == u.id).length
    ∧ (Routes.read_items items u skip limit).data
        = ((if u.is_superuser then items
            else items.filter fun it => it.owner_id == u.id).drop skip).take limit
    ∧ (Routes.read_items items u skip limit).data.length ≤ limit := by
  unfold Routes.read_items
  cases hsup : u.is_superuser with
  | true =>
    refine ⟨by simp, by simp, by simp, ?_⟩
    simp
  | false =>
    refine ⟨by simp, by simp, by simp, ?_⟩
    simp

end FastapiBE
